import Mathlib

/-!
Shallow embedding of `src/server/pdfGenerator.py` (PrintBroker layout renderer).

The renderer is modelled as a trace-producing state machine: a canvas holds a
graphics state (stroke colour, fill colour, dash pattern, font, line width and
the saveState/restoreState stack) and accumulates drawing operations.  Python
exceptions are modelled by an `Option String` result; an action with a `some`
result is an action whose exception escaped.  Fallible interactions with the
outside world (file existence, PyPDF2 reads, cairosvg availability and
conversion, tempfile creation, image reads, canvas method availability,
the final save) are supplied by an `Env` record, so that theorems quantify
over every possible behaviour of those collaborators.
-/

/-- An RGB colour as passed to `setStrokeColorRGB` / `setFillColorRGB`. -/
structure RGB where
  r : ℚ
  g : ℚ
  b : ℚ
deriving DecidableEq, Repr

/-- A drawing operation recorded on the canvas.  A rectangle records the
stroke colour and dash flag in force when it was drawn and, when filled,
the fill colour (`rect(..., fill=1)`); `text` is `drawString`, `ctext` is
`drawCentredText`, `image` is `drawImage`. -/
inductive Op where
  | rect (x y w h : ℚ) (stroke : RGB) (dashed : Bool) (fill : Option RGB)
  | text (x y : ℚ) (font : String) (size : ℚ) (s : String)
  | ctext (x y : ℚ) (font : String) (size : ℚ) (s : String)
  | image (path : String) (x y w h : ℚ)
deriving DecidableEq, Repr

/-- The mutable graphics state of a ReportLab canvas. -/
structure GState where
  stroke : RGB
  fill : RGB
  dash : Bool
  font : String
  fontSize : ℚ
  lineWidth : ℚ
deriving DecidableEq, Repr

/-- Canvas state: current graphics state plus the saveState/restoreState stack. -/
structure CanvasState where
  g : GState
  stack : List GState
deriving DecidableEq, Repr

/-- The initial graphics state of a fresh canvas. -/
def initG : GState := ⟨⟨0, 0, 0⟩, ⟨0, 0, 0⟩, false, "Helvetica", 12, 1⟩

/-- A fresh canvas state. -/
def initCS : CanvasState := ⟨initG, []⟩

/-- An action on the canvas: from a canvas state it produces the operations it
emitted, the new canvas state, and `some msg` when a Python exception escaped
it (partial traces are kept, as the real canvas keeps drawings made before an
exception). -/
def Act : Type := CanvasState → List Op × CanvasState × Option String

/-- Sequencing of two actions: the second runs only when the first did not
raise; operations accumulate either way. -/
def aseq (a b : Act) : Act := fun st =>
  match (a st).2.2 with
  | some _ => a st
  | none =>
    ((a st).1 ++ (b (a st).2.1).1, (b (a st).2.1).2.1, (b (a st).2.1).2.2)

/-- The action that does nothing. -/
def apure : Act := fun st => ([], st, none)

/-- Raising a Python exception. -/
def araise (msg : String) : Act := fun st => ([], st, some msg)

/-- A `try ... except Exception` block: the handler receives the message and
runs from the state the body reached; operations of both accumulate. -/
def acatch (body : Act) (handler : String → Act) : Act := fun st =>
  match (body st).2.2 with
  | none => body st
  | some e =>
    ((body st).1 ++ (handler e (body st).2.1).1,
     (handler e (body st).2.1).2.1,
     (handler e (body st).2.1).2.2)

/-- Run a list of actions in order. -/
def aall (xs : List Act) : Act := xs.foldr aseq apure

/-- `setStrokeColorRGB`. -/
def setStrokeA (c : RGB) : Act := fun st =>
  ([], ⟨{ st.g with stroke := c }, st.stack⟩, none)

/-- `setFillColorRGB`. -/
def setFillA (c : RGB) : Act := fun st =>
  ([], ⟨{ st.g with fill := c }, st.stack⟩, none)

/-- `setDash([2, 2])` / `setDash([])`, abstracted to on/off. -/
def setDashA (d : Bool) : Act := fun st =>
  ([], ⟨{ st.g with dash := d }, st.stack⟩, none)

/-- `setFont`. -/
def setFontA (f : String) (sz : ℚ) : Act := fun st =>
  ([], ⟨{ st.g with font := f, fontSize := sz }, st.stack⟩, none)

/-- `setLineWidth`. -/
def setLineWidthA (w : ℚ) : Act := fun st =>
  ([], ⟨{ st.g with lineWidth := w }, st.stack⟩, none)

/-- `rect(x, y, w, h, fill=...)`: records current stroke colour and dash flag;
a filled rectangle records the current fill colour. -/
def rectA (x y w h : ℚ) (filled : Bool) : Act := fun st =>
  ([Op.rect x y w h st.g.stroke st.g.dash (if filled then some st.g.fill else none)],
   st, none)

/-- `drawString`. -/
def drawStringA (x y : ℚ) (s : String) : Act := fun st =>
  ([Op.text x y st.g.font st.g.fontSize s], st, none)

/-- `saveState`. -/
def saveStateA : Act := fun st => ([], ⟨st.g, st.g :: st.stack⟩, none)

/-- `restoreState`; raises on an empty state stack, as ReportLab does. -/
def restoreStateA : Act := fun st =>
  match st.stack with
  | [] => ([], st, some "restoreState on empty stack")
  | g :: rest => ([], ⟨g, rest⟩, none)

/-- Behaviour of the external collaborators of one render: storage, PyPDF2,
cairosvg, tempfile, image reading, canvas method availability, output save. -/
structure Env where
  fileExists : String → Bool
  readPdf : String → Except Unit (List (ℚ × ℚ))
  drawCentredTextOk : Bool
  svgToolsAvailable : Bool
  svg2png : String → Int → Int → Except Unit Unit
  tempWrite : Except Unit String
  drawImage : String → Except Unit Unit
  save : Bool

/-- `drawCentredText`: raises `AttributeError` when the canvas lacks the
method, otherwise records a centred text operation. -/
def drawCentredA (env : Env) (x y : ℚ) (s : String) : Act := fun st =>
  if env.drawCentredTextOk then ([Op.ctext x y st.g.font st.g.fontSize s], st, none)
  else ([], st, some "AttributeError")

/-- `ImageReader(path)` followed by `c.drawImage(img, x, y, w, h)`: raises
when the environment makes the read/draw fail. -/
def drawImageA (env : Env) (path : String) (x y w h : ℚ) : Act := fun st =>
  match env.drawImage path with
  | .ok _ => ([Op.image path x y w h], st, none)
  | .error _ => ([], st, some "image error")

/-- The embedded `pdf_canvas.Canvas(buffer, ...)`: its drawing runs on a fresh
canvas whose operations never reach the output, but its exceptions propagate. -/
def subCanvasA (a : Act) : Act := fun st => ([], st, (a initCS).2.2)

/-- Python `str.lower()`: lower-case every character. -/
def pyLower (s : String) : String := ⟨s.data.map Char.toLower⟩

/-- Python `str.endswith(suffix)`. -/
def pyEndsWith (s suffix : String) : Bool := suffix.data.isSuffixOf s.data

/-- One ReportLab point per millimeter: `mm = 72 / 25.4` from
`reportlab.lib.units`. -/
def mmPt : ℚ := 72 / 25.4

/-- One ReportLab point per centimeter: `cm = 72 / 2.54`. -/
def cmPt : ℚ := 72 / 2.54

/-- Millimeters to points, as used on every placement coordinate
(`x_mm * mm`). -/
def mmToPt (x : ℚ) : ℚ := x * mmPt

/-- Points to millimeters, the factor `0.352778` of `get_pdf_dimensions`. -/
def ptToMm (p : ℚ) : ℚ := p * 0.352778

/-- The top-left-origin to bottom-left-origin flip of one placement
rectangle: `y_pt = (480 - y_mm - height_mm) * mm`, x unchanged (still in
millimeters here). -/
def flipTL (sheetH x y w h : ℚ) : ℚ × ℚ × ℚ × ℚ := (x, sheetH - y - h, w, h)

/-- Full coordinate mapping of one placement: flip at sheet height 480 mm,
then convert each millimeter value to points. -/
def toCanvas (sheetH x y w h : ℚ) : ℚ × ℚ × ℚ × ℚ :=
  match flipTL sheetH x y w h with
  | (a, b, c, d) => (mmToPt a, mmToPt b, mmToPt c, mmToPt d)

/-- Sheet width in points: `SHEET_WIDTH = 33 * cm`. -/
def sheetW : ℚ := 33 * cmPt

/-- Sheet height in points: `SHEET_HEIGHT = 48 * cm`. -/
def sheetH : ℚ := 48 * cmPt

/-- Python `f"{q:.1f}"` on the clean values used here: round to one decimal
place and print. -/
def fmt1 (q : ℚ) : String :=
  let n : ℤ := round (q * 10)
  toString (n / 10) ++ "." ++ toString (n % 10).natAbs

/-- `get_pdf_dimensions`: first page mediabox in points, converted with the
0.352778 factor; any read failure (including no pages) yields the (50, 30)
fallback. -/
def get_pdf_dimensions (env : Env) (path : String) : ℚ × ℚ :=
  match env.readPdf path with
  | .ok ((w, h) :: _) => (ptToMm w, ptToMm h)
  | .ok [] => (50, 30)
  | .error _ => (50, 30)

/-- One arrangement entry as decoded from the request: every field read with
`.get`, so every field is optional. -/
structure Arrangement where
  designId : Option String
  x : Option ℚ
  y : Option ℚ
  width : Option ℚ
  height : Option ℚ
deriving DecidableEq, Repr

/-- One design-file entry of the manifest. -/
structure DesignFile where
  id : Option String
  filePath : Option String
  name : Option String
deriving DecidableEq, Repr

/-- The display name: `design_file.get('name', f'Design_{i+1}')`. -/
def labelName (i : ℕ) (df : DesignFile) : String :=
  df.name.getD ("Design_" ++ toString (i + 1))

/-- The per-placement label `f"{i+1}. {file_name} ({w:.1f}x{h:.1f}mm)"`. -/
def labelText (i : ℕ) (fn : String) (wMm hMm : ℚ) : String :=
  toString (i + 1) ++ ". " ++ fn ++ " (" ++ fmt1 wMm ++ "x" ++ fmt1 hMm ++ "mm)"

/-- The fallback placeholder rectangle drawn 2 points inside the target
rectangle: `rect(x_pt + 2, y_pt + 2, width_pt - 4, height_pt - 4, fill=1)`
after `setFillColorRGB`. -/
def insetBox (c : RGB) (x y w h : ℚ) : Act :=
  aseq (setFillA c) (rectA (x + 2) (y + 2) (w - 4) (h - 4) true)

/-- The throwaway canvas drawn into the BytesIO buffer inside the PDF branch
(its operations are discarded by `subCanvasA`; only its exceptions matter). -/
def embeddedPdf (env : Env) (fn : String) (sw sh wMm hMm : ℚ) : Act :=
  aall [saveStateA,
        setStrokeA ⟨0.2, 0.4, 0.8⟩, setLineWidthA 2, rectA 0 0 sw sh false,
        setFillA ⟨0.2, 0.4, 0.8⟩, setFontA "Helvetica-Bold" 12,
        drawCentredA env (sw / 2) (sh / 2) "PDF TASARIM",
        setFontA "Helvetica" 8,
        drawCentredA env (sw / 2) (sh / 2 - 20) fn,
        setFontA "Helvetica" 6,
        drawCentredA env (sw / 2) (sh / 2 - 35) (fmt1 wMm ++ "x" ++ fmt1 hMm ++ "mm"),
        restoreStateA]

/-- The inner `try` of the PDF branch: read the source PDF, compute the scale
(a zero-sized mediabox raises ZeroDivisionError), draw the buffer canvas,
then draw the visual representation on the main canvas. -/
def pdfInner (env : Env) (fp fn : String) (x y w h wMm hMm : ℚ) : Act := fun st =>
  match env.readPdf fp with
  | .error _ => araise "PdfReader" st
  | .ok [] => apure st
  | .ok ((sw, sh) :: _) =>
    if sw = 0 ∨ sh = 0 then araise "ZeroDivisionError" st
    else
      aall [subCanvasA (embeddedPdf env fn sw sh wMm hMm),
            saveStateA,
            setFillA ⟨0.95, 0.97, 1⟩, rectA x y w h true,
            setStrokeA ⟨0.2, 0.4, 0.8⟩, setLineWidthA 1, rectA x y w h false,
            setFillA ⟨0.2, 0.4, 0.8⟩,
            setFontA "Helvetica-Bold" (max 8 (min (w / 20) 12)),
            drawCentredA env (x + w / 2) (y + h / 2) "PDF TASARIM",
            setFontA "Helvetica" (max 6 (min (w / 25) 8)),
            drawCentredA env (x + w / 2) (y + h / 2 - 15) fn,
            setFontA "Helvetica" (max 4 (min (w / 30) 6)),
            drawCentredA env (x + w / 2) (y + h / 2 - 25) (fmt1 wMm ++ "x" ++ fmt1 hMm ++ "mm"),
            restoreStateA] st

/-- The `except Exception as pdf_error` handler of the PDF branch: an
enhanced placeholder at the exact target bounds.  Its own `drawCentredText`
calls can raise again and escape to the outer handler. -/
def pdfFallback (env : Env) (fn : String) (x y w h : ℚ) : Act :=
  aall [setFillA ⟨0.9, 0.9, 1⟩, rectA x y w h true,
        setStrokeA ⟨0.2, 0.4, 0.8⟩, rectA x y w h false,
        setFillA ⟨0.2, 0.4, 0.8⟩, setFontA "Helvetica-Bold" 10,
        drawCentredA env (x + w / 2) (y + h / 2) "PDF DOSYASI",
        setFontA "Helvetica" 8,
        drawCentredA env (x + w / 2) (y + h / 2 - 15) fn]

/-- The SVG branch: `except ImportError` yields the green placeholder; a
cairosvg conversion or tempfile failure is not an ImportError and escapes to
the outer handler; a failure to draw the converted image yields the green
placeholder (the tempfile unlink in `finally` swallows its own errors). -/
def svgBranch (env : Env) (fp : String) (x y w h : ℚ) : Act := fun st =>
  if env.svgToolsAvailable then
    match env.svg2png fp ⌊w⌋ ⌊h⌋ with
    | .error _ => araise "svg2png error" st
    | .ok _ =>
      match env.tempWrite with
      | .error _ => araise "tempfile error" st
      | .ok tmp =>
        acatch (drawImageA env tmp x y w h)
          (fun _ => insetBox ⟨0.9, 1, 0.9⟩ x y w h) st
  else insetBox ⟨0.9, 1, 0.9⟩ x y w h st

/-- The body of the outer `try` (the Embedding Strategy Dispatcher): branch
on the lower-cased file extension. -/
def embedBody (env : Env) (fp fn : String) (x y w h wMm hMm : ℚ) : Act :=
  if pyEndsWith (pyLower fp) ".pdf" then
    acatch (pdfInner env fp fn x y w h wMm hMm) (fun _ => pdfFallback env fn x y w h)
  else if pyEndsWith (pyLower fp) ".svg" then
    svgBranch env fp x y w h
  else if pyEndsWith (pyLower fp) ".jpg" || pyEndsWith (pyLower fp) ".jpeg"
       || pyEndsWith (pyLower fp) ".png" then
    acatch (drawImageA env fp x y w h) (fun _ => insetBox ⟨1, 0.9, 0.9⟩ x y w h)
  else insetBox ⟨0.95, 0.95, 0.95⟩ x y w h

/-- The embedding step of one placement: skipped entirely when the file does
not exist on storage; otherwise the dispatcher runs under the outer
`except Exception` whose handler draws the generic gray placeholder. -/
def embedTail (env : Env) (fp fn : String) (x y w h wMm hMm : ℚ) : Act :=
  if env.fileExists fp then
    acatch (embedBody env fp fn x y w h wMm hMm)
      (fun _ => insetBox ⟨0.9, 0.9, 0.9⟩ x y w h)
  else apure

/-- Processing of one arrangement: geometry with defaults, linear lookup of
the design file (a miss skips the placement wholesale via `continue`), then
cutting margin, border, label, and the embedding step. -/
def perPlacement (env : Env) (files : List DesignFile) (i : ℕ) (a : Arrangement) : Act :=
  match toCanvas 480 (a.x.getD 0) (a.y.getD 0) (a.width.getD 50) (a.height.getD 30) with
  | (x, y, w, h) =>
    match files.find? (fun f => decide (f.id = a.designId)) with
    | none => apure
    | some df =>
      let fp := df.filePath.getD ""
      let fn := labelName i df
      let m := 3 * mmPt
      aall [setStrokeA ⟨0.8, 0.8, 0.8⟩, setDashA true,
            rectA (x - m) (y - m) (w + 2 * m) (h + 2 * m) false,
            setDashA false,
            setStrokeA ⟨0.2, 0.4, 0.8⟩, rectA x y w h false,
            setFontA "Helvetica" 6,
            drawStringA (x + 2) (y + 2)
              (labelText i fn (a.width.getD 50) (a.height.getD 30)),
            embedTail env fp fn x y w h (a.width.getD 50) (a.height.getD 30)]

/-- The loop `for i, arrangement in enumerate(arrangements)`. -/
def loopArr (env : Env) (files : List DesignFile) : ℕ → List Arrangement → Act
  | _, [] => apure
  | i, a :: rest => aseq (perPlacement env files i a) (loopArr env files (i + 1) rest)

/-- Title, summary line and full-sheet border drawn before the loop. -/
def headerA (n : ℕ) : Act :=
  aall [setFontA "Helvetica-Bold" 12,
        drawStringA cmPt (sheetH - cmPt) "Matbixx - Otomatik Dizim Layout",
        setFontA "Helvetica" 8,
        drawStringA cmPt (sheetH - 1.5 * cmPt)
          ("Boyut: 33x48cm | Toplam Tasarım: " ++ toString n),
        setStrokeA ⟨0, 0, 0⟩,
        rectA (0.5 * cmPt) (0.5 * cmPt) (sheetW - cmPt) (sheetH - cmPt) false]

/-- The statistics block drawn after the loop. -/
def statsA (n : ℕ) : Act :=
  aall [setFontA "Helvetica" 8,
        drawStringA cmPt (2 * cmPt) ("Toplam Dizilen Tasarım: " ++ toString n),
        drawStringA cmPt (2 * cmPt - 0.4 * cmPt) "Kesim Payı: 0.3cm (3mm)",
        drawStringA cmPt (2 * cmPt - 0.8 * cmPt) "Algoritma: Advanced 2D Bin Packing"]

/-- `c.save()`: fails when the output target cannot be written. -/
def saveA (env : Env) : Act := fun st =>
  ([], st, if env.save then none else some "save failed")

/-- The whole body of `create_layout_pdf` as one action. -/
def createLayout (env : Env) (arrs : List Arrangement) (files : List DesignFile) : Act :=
  aseq (headerA arrs.length)
    (aseq (loopArr env files 0 arrs)
      (aseq (statsA arrs.length) (saveA env)))

/-- One page of the output document. -/
structure Page where
  size : ℚ × ℚ
  ops : List Op
deriving DecidableEq, Repr

/-- The output document. -/
structure Document where
  pages : List Page
deriving DecidableEq, Repr

/-- `create_layout_pdf`: run the action from a fresh canvas of the fixed
pagesize; an escaping exception aborts with no document, otherwise one page
is produced and the function returns `True`. -/
def create_layout_pdf (env : Env) (arrs : List Arrangement) (files : List DesignFile) :
    Except String (Document × Bool) :=
  match createLayout env arrs files initCS with
  | (ops, _, none) => .ok (⟨[⟨(sheetW, sheetH), ops⟩]⟩, true)
  | (_, _, some e) => .error e

/-- A parsed JSON value (the result of `json.loads`). -/
inductive JValue where
  | obj (fields : List (String × JValue))
  | arr (xs : List JValue)
  | str (s : String)
  | num (q : ℚ)
  | bool (b : Bool)
  | null

/-- Dictionary lookup, `d.get(k)` returning `none` for an absent key. -/
def jGet (fields : List (String × JValue)) (k : String) : Option JValue :=
  (fields.find? (fun kv => decide (kv.1 = k))).map (fun kv => kv.2)

/-- Read an identifier field: absent and `null` both read as Python `None`;
identifiers are modelled as strings (the only kind the program is fed).  A
value of another type is treated as a decode failure. -/
def decodeId (v : Option JValue) : Except Unit (Option String) :=
  match v with
  | none => .ok none
  | some .null => .ok none
  | some (.str s) => .ok (some s)
  | some _ => .error ()

/-- Read an optional numeric field; a present non-numeric value makes the
later arithmetic on it raise, modelled as a decode failure (a JSON boolean
is a Python int). -/
def decodeNum (v : Option JValue) : Except Unit (Option ℚ) :=
  match v with
  | none => .ok none
  | some (.num q) => .ok (some q)
  | some (.bool b) => .ok (some (if b then 1 else 0))
  | some _ => .error ()

/-- Read an optional string field; a present non-string value is a decode
failure. -/
def decodeStr (v : Option JValue) : Except Unit (Option String) :=
  match v with
  | none => .ok none
  | some (.str s) => .ok (some s)
  | some _ => .error ()

/-- Decode one arrangement entry: anything but an object raises
`AttributeError` on `.get`, which the top level turns into a failure. -/
def decodeArrangement (v : JValue) : Except Unit Arrangement :=
  match v with
  | .obj fs => do
    let d ← decodeId (jGet fs "designId")
    let x ← decodeNum (jGet fs "x")
    let y ← decodeNum (jGet fs "y")
    let w ← decodeNum (jGet fs "width")
    let h ← decodeNum (jGet fs "height")
    .ok ⟨d, x, y, w, h⟩
  | _ => .error ()

/-- Decode one design-file entry. -/
def decodeFile (v : JValue) : Except Unit DesignFile :=
  match v with
  | .obj fs => do
    let i ← decodeId (jGet fs "id")
    let p ← decodeStr (jGet fs "filePath")
    let n ← decodeStr (jGet fs "name")
    .ok ⟨i, p, n⟩
  | _ => .error ()

/-- Decode the top-level payload: a non-object payload raises on `.get`;
absent top-level fields take the defaults `[]`, `[]`, `"layout.pdf"`; a
present field of the wrong shape makes the later iteration raise. -/
def decodeRequest (v : JValue) :
    Except Unit (List Arrangement × List DesignFile × String) :=
  match v with
  | .obj fs =>
    match (match jGet fs "arrangements" with
           | none => Except.ok []
           | some (.arr xs) => xs.mapM decodeArrangement
           | some _ => Except.error ()) with
    | .error e => .error e
    | .ok arrs =>
      match (match jGet fs "designFiles" with
             | none => Except.ok []
             | some (.arr xs) => xs.mapM decodeFile
             | some _ => Except.error ()) with
      | .error e => .error e
      | .ok files =>
        match jGet fs "outputPath" with
        | none => .ok (arrs, files, "layout.pdf")
        | some (.str s) => .ok (arrs, files, s)
        | some _ => .error ()
  | _ => .error ()

/-- The two observable end states of one invocation of `main`. -/
inductive MainResult where
  | success (path : String)
  | failure
deriving DecidableEq, Repr

/-- `main`: `none` stands for a missing argument or a `json.loads` failure;
every exception reaching `main` (decode failures, a failing save) becomes
the failure outcome; otherwise the success line names the output path. -/
def runMain (parsed : Option JValue) (env : Env) : MainResult :=
  match parsed with
  | none => .failure
  | some v =>
    match decodeRequest v with
    | .error _ => .failure
    | .ok (arrs, files, out) =>
      match create_layout_pdf env arrs files with
      | .error _ => .failure
      | .ok (_, flag) => if flag then .success out else .failure

/-- The always-drawn block of one resolved placement: dashed cutting margin
3 mm outward, solid border at the exact bounds, and the label. -/
def blockOps (i : ℕ) (a : Arrangement) (df : DesignFile) : List Op :=
  match toCanvas 480 (a.x.getD 0) (a.y.getD 0) (a.width.getD 50) (a.height.getD 30) with
  | (x, y, w, h) =>
    let m := 3 * mmPt
    [Op.rect (x - m) (y - m) (w + 2 * m) (h + 2 * m) ⟨0.8, 0.8, 0.8⟩ true none,
     Op.rect x y w h ⟨0.2, 0.4, 0.8⟩ false none,
     Op.text (x + 2) (y + 2) "Helvetica" 6
       (labelText i (labelName i df) (a.width.getD 50) (a.height.getD 30))]

/-- The canvas state at the end of the always-drawn block, as a function of
the incoming state. -/
def afterBlock (st : CanvasState) : CanvasState :=
  ⟨⟨⟨0.2, 0.4, 0.8⟩, st.g.fill, false, "Helvetica", 6, st.g.lineWidth⟩, st.stack⟩

/-- Is this operation a dashed rectangle (a cutting-margin outline)? -/
def isDashedRect : Op → Bool
  | .rect _ _ _ _ _ dashed _ => dashed
  | _ => false

/-- Number of dashed cutting-margin rectangles in a trace. -/
def countDashed (ops : List Op) : ℕ := ops.countP isDashedRect

/-- Is this operation a filled rectangle (every fallback/placeholder box is
one)? -/
def isFilledRect : Op → Bool
  | .rect _ _ _ _ _ _ (some _) => true
  | _ => false

/-- Number of placements whose designId resolves to some design file. -/
def resolvedCount (files : List DesignFile) (arrs : List Arrangement) : ℕ :=
  arrs.countP (fun a => (files.find? (fun f => decide (f.id = a.designId))).isSome)

/-- The x coordinate (points) the renderer computes for an arrangement. -/
def geomX (a : Arrangement) : ℚ := mmToPt (a.x.getD 0)

/-- The flipped y coordinate (points) the renderer computes. -/
def geomY (a : Arrangement) : ℚ := mmToPt (480 - a.y.getD 0 - a.height.getD 30)

/-- The width (points) the renderer computes. -/
def geomW (a : Arrangement) : ℚ := mmToPt (a.width.getD 50)

/-- The height (points) the renderer computes. -/
def geomH (a : Arrangement) : ℚ := mmToPt (a.height.getD 30)

/-- The fallback box the dispatcher draws for an arrangement, inset 2 points
inside the target bounds, stroked with the blue that is current after the
border was drawn. -/
def fallbackBoxOp (c : RGB) (a : Arrangement) : Op :=
  Op.rect (geomX a + 2) (geomY a + 2) (geomW a - 4) (geomH a - 4)
    ⟨0.2, 0.4, 0.8⟩ false (some c)

/-- Is this a solid non-filled rectangle stroked with the placement-border
blue (0.2, 0.4, 0.8)? -/
def isBorderRect : Op → Bool
  | .rect _ _ _ _ s d none => decide (s = RGB.mk 0.2 0.4 0.8) && !d
  | _ => false

/-- Is this a filled rectangle of the given fill colour? -/
def isFillColor (c : RGB) : Op → Bool
  | .rect _ _ _ _ _ _ (some c2) => decide (c2 = c)
  | _ => false

/-- Is this a filled rectangle of the given colour at the given bounds? -/
def isFillColorAt (c : RGB) (x y w h : ℚ) : Op → Bool
  | .rect x2 y2 w2 h2 _ _ (some c2) =>
    decide (c2 = c) && decide (x2 = x) && decide (y2 = y)
      && decide (w2 = w) && decide (h2 = h)
  | _ => false

/-- Is a JSON value an object? -/
def jIsObj : JValue → Bool
  | .obj _ => true
  | _ => false

/-- The trace of the whole sheet (header, placements, statistics). -/
def docOps (env : Env) (arrs : List Arrangement) (files : List DesignFile) : List Op :=
  (createLayout env arrs files initCS).1

/-- Is this operation a `drawString` text? -/
def isTextOp : Op → Bool
  | .text _ _ _ _ _ => true
  | _ => false

/-- Is this operation a placement label (`drawString` at the label font size
6, which no other `drawString` of the renderer uses)? -/
def isLabelOp : Op → Bool
  | .text _ _ _ sz _ => decide (sz = 6)
  | _ => false

/-- An action that never emits a `drawString` operation, whatever the state:
the whole embedding dispatcher is such an action. -/
def TextFree (a : Act) : Prop := ∀ st, ((a st).1.countP isTextOp) = 0

/-- An environment in which every external step succeeds (the missing
`/missing.png` apart, which is exactly the C8 scenario file). -/
def envNoFile : Env :=
  ⟨fun _ => false, fun _ => .error (), true, true, fun _ _ _ => .ok (),
   .ok "/tmp/conv.png", fun _ => .ok (), true⟩

/-- An environment in which every external step succeeds. -/
def envAllOk : Env :=
  ⟨fun _ => true, fun _ => .ok [(595, 842)], true, true, fun _ _ _ => .ok (),
   .ok "/tmp/conv.png", fun _ => .ok (), true⟩

/-- An environment in which cairosvg and PIL are not importable. -/
def envNoSvgTools : Env :=
  ⟨fun _ => true, fun _ => .ok [(595, 842)], true, false, fun _ _ _ => .ok (),
   .ok "/tmp/conv.png", fun _ => .ok (), true⟩

/-- An environment in which the cairosvg conversion itself raises. -/
def envSvgConvFails : Env :=
  ⟨fun _ => true, fun _ => .ok [(595, 842)], true, true, fun _ _ _ => .error (),
   .ok "/tmp/conv.png", fun _ => .ok (), true⟩

/-- The arrangement of the end-to-end scenarios:
`{designId: "a", x: 0, y: 0, width: 50, height: 30}`. -/
def arrStd : Arrangement := ⟨some "a", some 0, some 0, some 50, some 30⟩

/-- An arrangement whose designId matches no design file of the scenarios. -/
def arrMiss : Arrangement := ⟨some "zzz", some 0, some 0, some 50, some 30⟩

/-- The C8 design file `{id: "a", filePath: "/missing.png", name: "A"}`. -/
def dfC8 : DesignFile := ⟨some "a", some "/missing.png", some "A"⟩

/-- A design file pointing at an SVG asset. -/
def dfSvg : DesignFile := ⟨some "a", some "/art.svg", some "A"⟩

/-- The C8 request payload (no `outputPath` field). -/
def vC8 : JValue :=
  .obj [("arrangements", .arr [.obj [("designId", .str "a"), ("x", .num 0),
          ("y", .num 0), ("width", .num 50), ("height", .num 30)]]),
        ("designFiles", .arr [.obj [("id", .str "a"),
          ("filePath", .str "/missing.png"), ("name", .str "A")]])]

theorem aseq_of_ok (a b : Act) (st : CanvasState) (h : (a st).2.2 = none) :
    aseq a b st =
      ((a st).1 ++ (b (a st).2.1).1, (b (a st).2.1).2.1, (b (a st).2.1).2.2) := by
  unfold aseq
  rw [h]

theorem aseq_of_err (a b : Act) (st : CanvasState) (e : String)
    (h : (a st).2.2 = some e) : aseq a b st = a st := by
  unfold aseq
  rw [h]

theorem acatch_of_ok (body : Act) (hnd : String → Act) (st : CanvasState)
    (h : (body st).2.2 = none) : acatch body hnd st = body st := by
  unfold acatch
  rw [h]

theorem acatch_of_err (body : Act) (hnd : String → Act) (st : CanvasState)
    (e : String) (h : (body st).2.2 = some e) :
    acatch body hnd st =
      ((body st).1 ++ (hnd e (body st).2.1).1,
       (hnd e (body st).2.1).2.1, (hnd e (body st).2.1).2.2) := by
  unfold acatch
  rw [h]

@[simp] theorem aseq_apure (a : Act) : aseq a apure = a := by
  funext st
  unfold aseq apure
  cases h : (a st).2.2 with
  | none => simp only [List.append_nil]; rw [← h]
  | some e => rfl

theorem insetBox_run (c : RGB) (x y w h : ℚ) (st : CanvasState) :
    insetBox c x y w h st =
      ([Op.rect (x + 2) (y + 2) (w - 4) (h - 4) st.g.stroke st.g.dash (some c)],
       ⟨{ st.g with fill := c }, st.stack⟩, none) := rfl

theorem insetBox_err (c : RGB) (x y w h : ℚ) (st : CanvasState) :
    (insetBox c x y w h st).2.2 = none := rfl

theorem acatch_err_none (body : Act) (hnd : String → Act)
    (hh : ∀ e st2, (hnd e st2).2.2 = none) (st : CanvasState) :
    (acatch body hnd st).2.2 = none := by
  cases he : (body st).2.2 with
  | none => rw [acatch_of_ok _ _ _ he]; exact he
  | some e => rw [acatch_of_err _ _ _ _ he]; exact hh e _

theorem embedTail_err (env : Env) (fp fn : String) (x y w h wMm hMm : ℚ)
    (st : CanvasState) : (embedTail env fp fn x y w h wMm hMm st).2.2 = none := by
  unfold embedTail
  cases hf : env.fileExists fp with
  | false => rw [if_neg Bool.false_ne_true]; rfl
  | true =>
    rw [if_pos rfl]
    exact acatch_err_none _ _ (fun e st2 => insetBox_err _ _ _ _ _ _) st

theorem perPlacement_miss (env : Env) (files : List DesignFile) (i : ℕ)
    (a : Arrangement) (st : CanvasState)
    (h : files.find? (fun f => decide (f.id = a.designId)) = none) :
    perPlacement env files i a st = ([], st, none) := by
  unfold perPlacement
  simp only [toCanvas, flipTL, mmToPt, h]
  rfl

theorem perPlacement_found (env : Env) (files : List DesignFile) (i : ℕ)
    (a : Arrangement) (st : CanvasState) (df : DesignFile)
    (h : files.find? (fun f => decide (f.id = a.designId)) = some df) :
    perPlacement env files i a st =
      (blockOps i a df
         ++ (embedTail env (df.filePath.getD "") (labelName i df) (geomX a) (geomY a)
              (geomW a) (geomH a) (a.width.getD 50) (a.height.getD 30)
              (afterBlock st)).1,
       (embedTail env (df.filePath.getD "") (labelName i df) (geomX a) (geomY a)
          (geomW a) (geomH a) (a.width.getD 50) (a.height.getD 30)
          (afterBlock st)).2.1,
       (embedTail env (df.filePath.getD "") (labelName i df) (geomX a) (geomY a)
          (geomW a) (geomH a) (a.width.getD 50) (a.height.getD 30)
          (afterBlock st)).2.2) := by
  obtain ⟨⟨s1, s2, s3, s4, s5, s6⟩, stk⟩ := st
  unfold perPlacement
  simp only [toCanvas, flipTL, mmToPt, h]
  simp only [aall, List.foldr, aseq_apure]
  simp [aseq, setStrokeA, setDashA, rectA, setFontA, drawStringA, blockOps,
    afterBlock, geomX, geomY, geomW, geomH, toCanvas, flipTL, mmToPt]

theorem perPlacement_err (env : Env) (files : List DesignFile) (i : ℕ)
    (a : Arrangement) (st : CanvasState) :
    (perPlacement env files i a st).2.2 = none := by
  cases hfind : files.find? (fun f => decide (f.id = a.designId)) with
  | none => rw [perPlacement_miss _ _ _ _ _ hfind]
  | some df =>
    rw [perPlacement_found _ _ _ _ _ _ hfind]
    exact embedTail_err _ _ _ _ _ _ _ _ _ _

theorem loopArr_err (env : Env) (files : List DesignFile) :
    ∀ (arrs : List Arrangement) (i : ℕ) (st : CanvasState),
      (loopArr env files i arrs st).2.2 = none := by
  intro arrs
  induction arrs with
  | nil => intro i st; rfl
  | cons a rest ih =>
    intro i st
    show (aseq (perPlacement env files i a) (loopArr env files (i + 1) rest) st).2.2 = none
    rw [aseq_of_ok _ _ _ (perPlacement_err env files i a st)]
    exact ih (i + 1) _

theorem loopArr_cons (env : Env) (files : List DesignFile) (i : ℕ)
    (a : Arrangement) (rest : List Arrangement) (st : CanvasState) :
    loopArr env files i (a :: rest) st =
      ((perPlacement env files i a st).1
         ++ (loopArr env files (i + 1) rest (perPlacement env files i a st).2.1).1,
       (loopArr env files (i + 1) rest (perPlacement env files i a st).2.1).2.1,
       (loopArr env files (i + 1) rest (perPlacement env files i a st).2.1).2.2) := by
  show aseq (perPlacement env files i a) (loopArr env files (i + 1) rest) st = _
  rw [aseq_of_ok _ _ _ (perPlacement_err env files i a st)]

theorem headerA_run (n : ℕ) (st : CanvasState) :
    headerA n st =
      ([Op.text cmPt (sheetH - cmPt) "Helvetica-Bold" 12 "Matbixx - Otomatik Dizim Layout",
        Op.text cmPt (sheetH - 1.5 * cmPt) "Helvetica" 8
          ("Boyut: 33x48cm | Toplam Tasarım: " ++ toString n),
        Op.rect (0.5 * cmPt) (0.5 * cmPt) (sheetW - cmPt) (sheetH - cmPt)
          ⟨0, 0, 0⟩ st.g.dash none],
       ⟨⟨⟨0, 0, 0⟩, st.g.fill, st.g.dash, "Helvetica", 8, st.g.lineWidth⟩, st.stack⟩,
       none) := by
  obtain ⟨⟨s1, s2, s3, s4, s5, s6⟩, stk⟩ := st
  simp only [headerA, aall, List.foldr, aseq_apure]
  simp [aseq, setFontA, drawStringA, setStrokeA, rectA]

theorem statsA_run (n : ℕ) (st : CanvasState) :
    statsA n st =
      ([Op.text cmPt (2 * cmPt) "Helvetica" 8 ("Toplam Dizilen Tasarım: " ++ toString n),
        Op.text cmPt (2 * cmPt - 0.4 * cmPt) "Helvetica" 8 "Kesim Payı: 0.3cm (3mm)",
        Op.text cmPt (2 * cmPt - 0.8 * cmPt) "Helvetica" 8 "Algoritma: Advanced 2D Bin Packing"],
       ⟨⟨st.g.stroke, st.g.fill, st.g.dash, "Helvetica", 8, st.g.lineWidth⟩, st.stack⟩,
       none) := by
  obtain ⟨⟨s1, s2, s3, s4, s5, s6⟩, stk⟩ := st
  simp only [statsA, aall, List.foldr, aseq_apure]
  simp [aseq, setFontA, drawStringA]

theorem createLayout_run (env : Env) (arrs : List Arrangement)
    (files : List DesignFile) :
    createLayout env arrs files initCS =
      ((headerA arrs.length initCS).1
         ++ (loopArr env files 0 arrs (headerA arrs.length initCS).2.1).1
         ++ (statsA arrs.length
              (loopArr env files 0 arrs (headerA arrs.length initCS).2.1).2.1).1,
       (statsA arrs.length
          (loopArr env files 0 arrs (headerA arrs.length initCS).2.1).2.1).2.1,
       if env.save then none else some "save failed") := by
  show aseq (headerA arrs.length)
      (aseq (loopArr env files 0 arrs) (aseq (statsA arrs.length) (saveA env)))
      initCS = _
  rw [aseq_of_ok]
  · rw [aseq_of_ok]
    · rw [aseq_of_ok]
      · simp [saveA]
      · rw [statsA_run]
    · exact loopArr_err env files arrs 0 _
  · rw [headerA_run]

theorem countP_append_op (p : Op → Bool) (l1 l2 : List Op) :
    (l1 ++ l2).countP p = l1.countP p + l2.countP p := List.countP_append _ _ _

theorem textFree_aseq (a b : Act) (ha : TextFree a) (hb : TextFree b) :
    TextFree (aseq a b) := by
  intro st
  cases he : (a st).2.2 with
  | some e => rw [aseq_of_err _ _ _ _ he]; exact ha st
  | none =>
    rw [aseq_of_ok _ _ _ he]
    simp only [countP_append_op, ha st, hb ((a st).2.1)]

theorem textFree_acatch (body : Act) (hnd : String → Act) (hb : TextFree body)
    (hh : ∀ e, TextFree (hnd e)) : TextFree (acatch body hnd) := by
  intro st
  cases he : (body st).2.2 with
  | none => rw [acatch_of_ok _ _ _ he]; exact hb st
  | some e =>
    rw [acatch_of_err _ _ _ _ he]
    simp only [countP_append_op, hb st, hh e ((body st).2.1)]

theorem textFree_apure : TextFree apure := fun _ => rfl

theorem textFree_aall (xs : List Act) (h : ∀ a ∈ xs, TextFree a) :
    TextFree (aall xs) := by
  induction xs with
  | nil => exact textFree_apure
  | cons x rest ih =>
    exact textFree_aseq x (aall rest) (h x (List.mem_cons_self _ _))
      (ih fun a ha => h a (List.mem_cons_of_mem _ ha))

theorem textFree_setStrokeA (c : RGB) : TextFree (setStrokeA c) := fun _ => rfl

theorem textFree_setFillA (c : RGB) : TextFree (setFillA c) := fun _ => rfl

theorem textFree_setDashA (d : Bool) : TextFree (setDashA d) := fun _ => rfl

theorem textFree_setFontA (f : String) (sz : ℚ) : TextFree (setFontA f sz) :=
  fun _ => rfl

theorem textFree_setLineWidthA (w : ℚ) : TextFree (setLineWidthA w) := fun _ => rfl

theorem textFree_rectA (x y w h : ℚ) (filled : Bool) : TextFree (rectA x y w h filled) :=
  fun _ => rfl

theorem textFree_saveStateA : TextFree saveStateA := fun _ => rfl

theorem textFree_restoreStateA : TextFree restoreStateA := by
  intro st
  unfold restoreStateA
  cases st.stack <;> rfl

theorem textFree_subCanvasA (a : Act) : TextFree (subCanvasA a) := fun _ => rfl

theorem textFree_araise (msg : String) : TextFree (araise msg) := fun _ => rfl

theorem textFree_drawCentredA (env : Env) (x y : ℚ) (s : String) :
    TextFree (drawCentredA env x y s) := by
  intro st
  unfold drawCentredA
  split <;> rfl

theorem textFree_drawImageA (env : Env) (path : String) (x y w h : ℚ) :
    TextFree (drawImageA env path x y w h) := by
  intro st
  unfold drawImageA
  split <;> rfl

theorem textFree_insetBox (c : RGB) (x y w h : ℚ) : TextFree (insetBox c x y w h) :=
  fun _ => rfl

theorem textFree_embeddedPdf (env : Env) (fn : String) (sw sh wMm hMm : ℚ) :
    TextFree (embeddedPdf env fn sw sh wMm hMm) := by
  refine textFree_aall _ (fun a ha => ?_)
  simp only [List.mem_cons, List.not_mem_nil, or_false] at ha
  rcases ha with rfl | rfl | rfl | rfl | rfl | rfl | rfl | rfl | rfl | rfl | rfl | rfl
  exacts [textFree_saveStateA, textFree_setStrokeA _, textFree_setLineWidthA _,
    textFree_rectA _ _ _ _ _, textFree_setFillA _, textFree_setFontA _ _,
    textFree_drawCentredA _ _ _ _, textFree_setFontA _ _, textFree_drawCentredA _ _ _ _,
    textFree_setFontA _ _, textFree_drawCentredA _ _ _ _, textFree_restoreStateA]

theorem textFree_pdfInner (env : Env) (fp fn : String) (x y w h wMm hMm : ℚ) :
    TextFree (pdfInner env fp fn x y w h wMm hMm) := by
  intro st
  unfold pdfInner
  split
  · rfl
  · rfl
  · split
    · rfl
    · refine textFree_aall _ (fun a ha => ?_) st
      simp only [List.mem_cons, List.not_mem_nil, or_false] at ha
      rcases ha with rfl | rfl | rfl | rfl | rfl | rfl | rfl | rfl | rfl | rfl | rfl | rfl | rfl | rfl | rfl
      exacts [textFree_subCanvasA _, textFree_saveStateA, textFree_setFillA _,
        textFree_rectA _ _ _ _ _, textFree_setStrokeA _, textFree_setLineWidthA _,
        textFree_rectA _ _ _ _ _, textFree_setFillA _, textFree_setFontA _ _,
        textFree_drawCentredA _ _ _ _, textFree_setFontA _ _,
        textFree_drawCentredA _ _ _ _, textFree_setFontA _ _,
        textFree_drawCentredA _ _ _ _, textFree_restoreStateA]

theorem textFree_pdfFallback (env : Env) (fn : String) (x y w h : ℚ) :
    TextFree (pdfFallback env fn x y w h) := by
  refine textFree_aall _ (fun a ha => ?_)
  simp only [List.mem_cons, List.not_mem_nil, or_false] at ha
  rcases ha with rfl | rfl | rfl | rfl | rfl | rfl | rfl | rfl | rfl
  exacts [textFree_setFillA _, textFree_rectA _ _ _ _ _, textFree_setStrokeA _,
    textFree_rectA _ _ _ _ _, textFree_setFillA _, textFree_setFontA _ _,
    textFree_drawCentredA _ _ _ _, textFree_setFontA _ _, textFree_drawCentredA _ _ _ _]

theorem textFree_svgBranch (env : Env) (fp : String) (x y w h : ℚ) :
    TextFree (svgBranch env fp x y w h) := by
  intro st
  unfold svgBranch
  cases henv : env.svgToolsAvailable with
  | false => rw [if_neg Bool.false_ne_true]; exact textFree_insetBox _ _ _ _ _ st
  | true =>
    rw [if_pos rfl]
    cases env.svg2png fp ⌊w⌋ ⌊h⌋ with
    | error e => rfl
    | ok u =>
      cases env.tempWrite with
      | error e => rfl
      | ok tmp =>
        exact textFree_acatch _ _ (textFree_drawImageA _ _ _ _ _ _)
          (fun e => textFree_insetBox _ _ _ _ _) st

theorem textFree_embedBody (env : Env) (fp fn : String) (x y w h wMm hMm : ℚ) :
    TextFree (embedBody env fp fn x y w h wMm hMm) := by
  unfold embedBody
  split
  · exact textFree_acatch _ _ (textFree_pdfInner _ _ _ _ _ _ _ _ _)
      (fun e => textFree_pdfFallback _ _ _ _ _ _)
  · split
    · exact textFree_svgBranch _ _ _ _ _ _
    · split
      · exact textFree_acatch _ _ (textFree_drawImageA _ _ _ _ _ _)
          (fun e => textFree_insetBox _ _ _ _ _)
      · exact textFree_insetBox _ _ _ _ _

theorem textFree_embedTail (env : Env) (fp fn : String) (x y w h wMm hMm : ℚ) :
    TextFree (embedTail env fp fn x y w h wMm hMm) := by
  unfold embedTail
  split
  · exact textFree_acatch _ _ (textFree_embedBody _ _ _ _ _ _ _ _ _)
      (fun e => textFree_insetBox _ _ _ _ _)
  · exact textFree_apure

theorem countLabel_le_countText (l : List Op) :
    l.countP isLabelOp ≤ l.countP isTextOp := by
  induction l with
  | nil => exact Nat.le_refl 0
  | cons op rest ih =>
    rw [List.countP_cons, List.countP_cons]
    have hop : (if isLabelOp op then 1 else 0) ≤ (if isTextOp op then 1 else 0) := by
      cases op <;> simp [isLabelOp, isTextOp]
      split <;> simp
    omega

theorem perPlacement_label (env : Env) (files : List DesignFile) (i : ℕ)
    (a : Arrangement) (st : CanvasState) :
    ((perPlacement env files i a st).1.countP isLabelOp) =
      if (files.find? (fun f => decide (f.id = a.designId))).isSome then 1 else 0 := by
  cases hfind : files.find? (fun f => decide (f.id = a.designId)) with
  | none => rw [perPlacement_miss _ _ _ _ _ hfind]; simp
  | some df =>
    rw [perPlacement_found _ _ _ _ _ _ hfind]
    simp only [Option.isSome_some, if_true]
    rw [countP_append_op]
    have h1 : (blockOps i a df).countP isLabelOp = 1 := by
      simp [blockOps, toCanvas, flipTL, List.countP_cons, isLabelOp]
    have h2 : ((embedTail env (df.filePath.getD "") (labelName i df) (geomX a) (geomY a)
        (geomW a) (geomH a) (a.width.getD 50) (a.height.getD 30)
        (afterBlock st)).1.countP isLabelOp) = 0 := by
      have := countLabel_le_countText ((embedTail env (df.filePath.getD "")
        (labelName i df) (geomX a) (geomY a) (geomW a) (geomH a)
        (a.width.getD 50) (a.height.getD 30) (afterBlock st)).1)
      have hz := textFree_embedTail env (df.filePath.getD "") (labelName i df)
        (geomX a) (geomY a) (geomW a) (geomH a) (a.width.getD 50)
        (a.height.getD 30) (afterBlock st)
      omega
    omega

theorem perPlacement_border_ge (env : Env) (files : List DesignFile) (i : ℕ)
    (a : Arrangement) (st : CanvasState) :
    (if (files.find? (fun f => decide (f.id = a.designId))).isSome then 1 else 0)
      ≤ (perPlacement env files i a st).1.countP isBorderRect := by
  cases hfind : files.find? (fun f => decide (f.id = a.designId)) with
  | none => simp
  | some df =>
    rw [perPlacement_found _ _ _ _ _ _ hfind]
    simp only [Option.isSome_some, if_true]
    rw [countP_append_op]
    have h1 : (blockOps i a df).countP isBorderRect = 1 := by
      simp [blockOps, toCanvas, flipTL, List.countP_cons, isBorderRect]
    omega

theorem loopArr_label (env : Env) (files : List DesignFile) :
    ∀ (arrs : List Arrangement) (i : ℕ) (st : CanvasState),
      ((loopArr env files i arrs st).1.countP isLabelOp) = resolvedCount files arrs := by
  intro arrs
  induction arrs with
  | nil => intro i st; rfl
  | cons a rest ih =>
    intro i st
    rw [loopArr_cons, countP_append_op, perPlacement_label, ih]
    unfold resolvedCount
    simp only [List.countP_cons]
    omega

theorem loopArr_border_ge (env : Env) (files : List DesignFile) :
    ∀ (arrs : List Arrangement) (i : ℕ) (st : CanvasState),
      resolvedCount files arrs ≤ (loopArr env files i arrs st).1.countP isBorderRect := by
  intro arrs
  induction arrs with
  | nil => intro i st; exact Nat.zero_le _
  | cons a rest ih =>
    intro i st
    rw [loopArr_cons, countP_append_op]
    have h1 := perPlacement_border_ge env files i a st
    have h2 := ih (i + 1) (perPlacement env files i a st).2.1
    unfold resolvedCount at h2 ⊢
    simp only [List.countP_cons]
    omega

theorem create_layout_pdf_ok (env : Env) (arrs : List Arrangement)
    (files : List DesignFile) (h : env.save = true) :
    create_layout_pdf env arrs files =
      .ok (⟨[⟨(sheetW, sheetH), docOps env arrs files⟩]⟩, true) := by
  unfold create_layout_pdf docOps
  rw [createLayout_run]
  simp [h]

theorem embedBody_svg (env : Env) (fp fn : String) (x y w h wMm hMm : ℚ)
    (hpdf : pyEndsWith (pyLower fp) ".pdf" = false)
    (hsvg : pyEndsWith (pyLower fp) ".svg" = true) :
    embedBody env fp fn x y w h wMm hMm = svgBranch env fp x y w h := by
  unfold embedBody
  rw [hpdf, if_neg Bool.false_ne_true, hsvg, if_pos rfl]

theorem embedBody_image (env : Env) (fp fn : String) (x y w h wMm hMm : ℚ)
    (hpdf : pyEndsWith (pyLower fp) ".pdf" = false)
    (hsvg : pyEndsWith (pyLower fp) ".svg" = false)
    (himg : (pyEndsWith (pyLower fp) ".jpg" || pyEndsWith (pyLower fp) ".jpeg"
             || pyEndsWith (pyLower fp) ".png") = true) :
    embedBody env fp fn x y w h wMm hMm =
      acatch (drawImageA env fp x y w h)
        (fun _ => insetBox ⟨1, 0.9, 0.9⟩ x y w h) := by
  unfold embedBody
  rw [hpdf, if_neg Bool.false_ne_true, hsvg, if_neg Bool.false_ne_true, himg, if_pos rfl]

theorem embedBody_unknown (env : Env) (fp fn : String) (x y w h wMm hMm : ℚ)
    (hpdf : pyEndsWith (pyLower fp) ".pdf" = false)
    (hsvg : pyEndsWith (pyLower fp) ".svg" = false)
    (himg : (pyEndsWith (pyLower fp) ".jpg" || pyEndsWith (pyLower fp) ".jpeg"
             || pyEndsWith (pyLower fp) ".png") = false) :
    embedBody env fp fn x y w h wMm hMm = insetBox ⟨0.95, 0.95, 0.95⟩ x y w h := by
  unfold embedBody
  rw [hpdf, if_neg Bool.false_ne_true, hsvg, if_neg Bool.false_ne_true, himg,
    if_neg Bool.false_ne_true]

theorem svgBranch_noTools (env : Env) (fp : String) (x y w h : ℚ)
    (htools : env.svgToolsAvailable = false) (st : CanvasState) :
    svgBranch env fp x y w h st = insetBox ⟨0.9, 1, 0.9⟩ x y w h st := by
  unfold svgBranch
  rw [htools, if_neg Bool.false_ne_true]

theorem svgBranch_convFail (env : Env) (fp : String) (x y w h : ℚ)
    (htools : env.svgToolsAvailable = true)
    (hconv : env.svg2png fp ⌊w⌋ ⌊h⌋ = .error ()) (st : CanvasState) :
    svgBranch env fp x y w h st = ([], st, some "svg2png error") := by
  unfold svgBranch
  rw [htools, if_pos rfl, hconv]
  rfl

theorem svgBranch_drawFail (env : Env) (fp : String) (x y w h : ℚ) (t : String)
    (htools : env.svgToolsAvailable = true)
    (hconv : env.svg2png fp ⌊w⌋ ⌊h⌋ = .ok ())
    (htmp : env.tempWrite = .ok t)
    (hdraw : env.drawImage t = .error ()) (st : CanvasState) :
    svgBranch env fp x y w h st = insetBox ⟨0.9, 1, 0.9⟩ x y w h st := by
  unfold svgBranch
  rw [htools, if_pos rfl, hconv, htmp]
  have hb : drawImageA env t x y w h st = ([], st, some "image error") := by
    unfold drawImageA
    rw [hdraw]
  show acatch (drawImageA env t x y w h)
      (fun _ => insetBox ⟨0.9, 1, 0.9⟩ x y w h) st =
    insetBox ⟨0.9, 1, 0.9⟩ x y w h st
  rw [acatch_of_err _ _ _ _
    (show (drawImageA env t x y w h st).2.2 = some "image error" by rw [hb])]
  rw [hb]
  simp

theorem embedTail_exists (env : Env) (fp fn : String) (x y w h wMm hMm : ℚ)
    (hex : env.fileExists fp = true) :
    embedTail env fp fn x y w h wMm hMm =
      acatch (embedBody env fp fn x y w h wMm hMm)
        (fun _ => insetBox ⟨0.9, 0.9, 0.9⟩ x y w h) := by
  unfold embedTail
  rw [hex, if_pos rfl]

/-- C3: the top-left-to-bottom-left transform `y = sheetH - y - h` (sheet
height 480 mm, x unchanged) is an involution on placement rectangles: applying
it twice recovers (x, y, w, h) exactly (hence within unit rounding). -/
theorem claim3_flip_involution : ∀ x y w h : ℚ,
    flipTL 480 (flipTL 480 x y w h).1 (flipTL 480 x y w h).2.1
      (flipTL 480 x y w h).2.2.1 (flipTL 480 x y w h).2.2.2 = (x, y, w, h) := by
  intro x y w h
  unfold flipTL
  have hy : (480 : ℚ) - (480 - y - h) - h = y := by ring
  rw [hy]

/-- C4 counterexample: composing the renderer's mm-to-pt conversion
(`x * mm`, mm = 72/25.4) with the pt-to-mm factor 0.352778 of
`get_pdf_dimensions` misses the original by more than 1e-6 mm at 50 mm and
at 480 mm, so the claimed 1e-6 tolerance fails on the representative set. -/
theorem claim4_counterexample :
    |ptToMm (mmToPt 50) - 50| > 1 / 1000000 ∧
    |ptToMm (mmToPt 480) - 480| > 1 / 1000000 := by
  constructor
  · refine lt_of_lt_of_le ?_ (le_abs_self _)
    norm_num [ptToMm, mmToPt, mmPt]
  · refine lt_of_lt_of_le ?_ (le_abs_self _)
    norm_num [ptToMm, mmToPt, mmPt]

/-- C4 (amended): the roundtrip multiplies by exactly 1587501/1587500, so it
returns the original within 1e-6 mm for 0 and 1 mm, and within 1e-3 mm
(but not 1e-6) for 50 and 480 mm. -/
theorem claim4_roundtrip :
    (∀ x : ℚ, ptToMm (mmToPt x) = x * (1587501 / 1587500)) ∧
    |ptToMm (mmToPt 0) - 0| ≤ 1 / 1000000 ∧
    |ptToMm (mmToPt 1) - 1| ≤ 1 / 1000000 ∧
    |ptToMm (mmToPt 50) - 50| ≤ 1 / 1000 ∧
    |ptToMm (mmToPt 480) - 480| ≤ 1 / 1000 := by
  have hb : ∀ q : ℚ, ∀ c : ℚ, -c ≤ q ∧ q ≤ c → |q| ≤ c := fun q c hq => abs_le.mpr hq
  refine ⟨fun x => ?_,
    hb _ _ (by constructor <;> norm_num [ptToMm, mmToPt, mmPt]),
    hb _ _ (by constructor <;> norm_num [ptToMm, mmToPt, mmPt]),
    hb _ _ (by constructor <;> norm_num [ptToMm, mmToPt, mmPt]),
    hb _ _ (by constructor <;> norm_num [ptToMm, mmToPt, mmPt])⟩
  unfold ptToMm mmToPt mmPt
  have hc : (72 / 25.4 : ℚ) * 0.352778 = 1587501 / 1587500 := by norm_num
  calc x * (72 / 25.4) * 0.352778 = x * ((72 / 25.4) * 0.352778) := by ring
    _ = x * (1587501 / 1587500) := by rw [hc]

/-- C1 (amended): for a placement that resolves to a design file the renderer
always emits, before any embedding operation, exactly the dashed 3 mm cutting
margin, the solid border at the exact bounds and the index/name/size label
(the `blockOps` prefix); a placement whose assetId matches no design file is
skipped wholesale: no label, border, margin or fallback box is drawn. -/
theorem claim1_block_or_skip : ∀ (env : Env) (files : List DesignFile) (i : ℕ)
    (a : Arrangement) (st : CanvasState),
    (files.find? (fun f => decide (f.id = a.designId)) = none →
      (perPlacement env files i a st).1 = []) ∧
    ∀ df, files.find? (fun f => decide (f.id = a.designId)) = some df →
      (perPlacement env files i a st).1 =
        blockOps i a df
          ++ (embedTail env (df.filePath.getD "") (labelName i df) (geomX a) (geomY a)
               (geomW a) (geomH a) (a.width.getD 50) (a.height.getD 30)
               (afterBlock st)).1 := by
  intro env files i a st
  constructor
  · intro h
    rw [perPlacement_miss _ _ _ _ _ h]
  · intro df h
    rw [perPlacement_found _ _ _ _ _ _ h]

/-- C1 witness: the resolved C8 placement starts with its block. -/
theorem claim1_witness :
    (perPlacement envNoFile [dfC8] 0 arrStd initCS).1 =
      blockOps 0 arrStd dfC8
        ++ (embedTail envNoFile "/missing.png" "A" (geomX arrStd) (geomY arrStd)
             (geomW arrStd) (geomH arrStd) 50 30 (afterBlock initCS)).1 :=
  (claim1_block_or_skip envNoFile [dfC8] 0 arrStd initCS).2 dfC8 rfl

/-- C1 counterexample: a resolved miss draws nothing at all — the claim that
label, border and cutting margin are still drawn for a miss is false. -/
theorem claim1_counterexample :
    (perPlacement envAllOk [dfC8] 0 arrMiss initCS).1 = [] := by
  rfl

/-- C5: no exception of the embedding attempt escapes one placement (nor the
placement loop), and when the dispatcher body raises, the placement trace is
the always-drawn block, the dispatcher's partial operations exactly once, and
exactly one generic gray fallback box appended once — caught locally, no
retry. -/
theorem claim5_failure_isolation : ∀ (env : Env) (files : List DesignFile)
    (i : ℕ) (a : Arrangement) (st : CanvasState),
    (perPlacement env files i a st).2.2 = none ∧
    (∀ (j : ℕ) (arrs : List Arrangement) (st2 : CanvasState),
      (loopArr env files j arrs st2).2.2 = none) ∧
    (∀ df, files.find? (fun f => decide (f.id = a.designId)) = some df →
      env.fileExists (df.filePath.getD "") = true →
      ∀ e, (embedBody env (df.filePath.getD "") (labelName i df) (geomX a) (geomY a)
              (geomW a) (geomH a) (a.width.getD 50) (a.height.getD 30)
              (afterBlock st)).2.2 = some e →
        (perPlacement env files i a st).1 =
          blockOps i a df
            ++ (embedBody env (df.filePath.getD "") (labelName i df) (geomX a) (geomY a)
                 (geomW a) (geomH a) (a.width.getD 50) (a.height.getD 30)
                 (afterBlock st)).1
            ++ [Op.rect (geomX a + 2) (geomY a + 2) (geomW a - 4) (geomH a - 4)
                  ((embedBody env (df.filePath.getD "") (labelName i df) (geomX a)
                     (geomY a) (geomW a) (geomH a) (a.width.getD 50)
                     (a.height.getD 30) (afterBlock st)).2.1.g.stroke)
                  ((embedBody env (df.filePath.getD "") (labelName i df) (geomX a)
                     (geomY a) (geomW a) (geomH a) (a.width.getD 50)
                     (a.height.getD 30) (afterBlock st)).2.1.g.dash)
                  (some ⟨0.9, 0.9, 0.9⟩)]) := by
  intro env files i a st
  refine ⟨perPlacement_err _ _ _ _ _, fun j arrs st2 => loopArr_err _ _ _ _ _, ?_⟩
  intro df hfind hex e he
  rw [perPlacement_found _ _ _ _ _ _ hfind]
  rw [embedTail_exists _ _ _ _ _ _ _ _ _ hex]
  rw [acatch_of_err _ _ _ _ he]
  rw [insetBox_run]
  simp

/-- C5 witness: an SVG whose cairosvg conversion raises escapes the inner
ImportError handler, is caught by the outer handler and boxed gray once. -/
theorem claim5_witness :
    (perPlacement envSvgConvFails [dfSvg] 0 arrStd initCS).1 =
      blockOps 0 arrStd dfSvg
        ++ (embedBody envSvgConvFails "/art.svg" "A" (geomX arrStd) (geomY arrStd)
             (geomW arrStd) (geomH arrStd) 50 30 (afterBlock initCS)).1
        ++ [Op.rect (geomX arrStd + 2) (geomY arrStd + 2) (geomW arrStd - 4)
              (geomH arrStd - 4)
              ((embedBody envSvgConvFails "/art.svg" "A" (geomX arrStd) (geomY arrStd)
                 (geomW arrStd) (geomH arrStd) 50 30 (afterBlock initCS)).2.1.g.stroke)
              ((embedBody envSvgConvFails "/art.svg" "A" (geomX arrStd) (geomY arrStd)
                 (geomW arrStd) (geomH arrStd) 50 30 (afterBlock initCS)).2.1.g.dash)
              (some ⟨0.9, 0.9, 0.9⟩)] :=
  (claim5_failure_isolation envSvgConvFails [dfSvg] 0 arrStd initCS).2.2 dfSvg rfl rfl
    "svg2png error" (by decide)

/-- C7 (amended): the fallback tint identifies the failure class, but every
fallback box is drawn inset 2 points inside the target bounds, not at the
exact bounds, and an svg2png conversion failure escapes the ImportError
handler to the generic gray handler: unavailable SVG tools or a failing draw
of the converted image give the green box; a conversion failure gives the
gray box; a raster read failure gives the red box; an unsupported extension
gives the neutral light-gray box for every environment (nothing read). -/
theorem claim7_fallback_tints : ∀ (env : Env) (files : List DesignFile) (i : ℕ)
    (a : Arrangement) (st : CanvasState) (df : DesignFile) (fp : String),
    files.find? (fun f => decide (f.id = a.designId)) = some df →
    df.filePath = some fp →
    env.fileExists fp = true →
    pyEndsWith (pyLower fp) ".pdf" = false →
    ((pyEndsWith (pyLower fp) ".svg" = true → env.svgToolsAvailable = false →
        (perPlacement env files i a st).1 =
          blockOps i a df ++ [fallbackBoxOp ⟨0.9, 1, 0.9⟩ a]) ∧
     (∀ t, pyEndsWith (pyLower fp) ".svg" = true → env.svgToolsAvailable = true →
        env.svg2png fp ⌊geomW a⌋ ⌊geomH a⌋ = .ok () → env.tempWrite = .ok t →
        env.drawImage t = .error () →
        (perPlacement env files i a st).1 =
          blockOps i a df ++ [fallbackBoxOp ⟨0.9, 1, 0.9⟩ a]) ∧
     (pyEndsWith (pyLower fp) ".svg" = true → env.svgToolsAvailable = true →
        env.svg2png fp ⌊geomW a⌋ ⌊geomH a⌋ = .error () →
        (perPlacement env files i a st).1 =
          blockOps i a df ++ [fallbackBoxOp ⟨0.9, 0.9, 0.9⟩ a]) ∧
     (pyEndsWith (pyLower fp) ".svg" = false →
        (pyEndsWith (pyLower fp) ".jpg" || pyEndsWith (pyLower fp) ".jpeg"
          || pyEndsWith (pyLower fp) ".png") = true →
        env.drawImage fp = .error () →
        (perPlacement env files i a st).1 =
          blockOps i a df ++ [fallbackBoxOp ⟨1, 0.9, 0.9⟩ a]) ∧
     (pyEndsWith (pyLower fp) ".svg" = false →
        (pyEndsWith (pyLower fp) ".jpg" || pyEndsWith (pyLower fp) ".jpeg"
          || pyEndsWith (pyLower fp) ".png") = false →
        (perPlacement env files i a st).1 =
          blockOps i a df ++ [fallbackBoxOp ⟨0.95, 0.95, 0.95⟩ a])) := by
  intro env files i a st df fp hfind hfp hex hpdf
  have hget : df.filePath.getD "" = fp := by rw [hfp]; rfl
  have hblock := perPlacement_found env files i a st df hfind
  rw [hget] at hblock
  refine ⟨?_, ?_, ?_, ?_, ?_⟩
  · intro hsvg htools
    rw [hblock, embedTail_exists _ _ _ _ _ _ _ _ _ hex,
      embedBody_svg _ _ _ _ _ _ _ _ _ hpdf hsvg]
    have hsb := svgBranch_noTools env fp (geomX a) (geomY a) (geomW a) (geomH a)
      htools (afterBlock st)
    rw [acatch_of_ok _ _ _ (by rw [hsb]; rfl), hsb, insetBox_run]
    simp [fallbackBoxOp, afterBlock]
  · intro t hsvg htools hconv htmp hdraw
    rw [hblock, embedTail_exists _ _ _ _ _ _ _ _ _ hex,
      embedBody_svg _ _ _ _ _ _ _ _ _ hpdf hsvg]
    have hsb := svgBranch_drawFail env fp (geomX a) (geomY a) (geomW a) (geomH a) t
      htools hconv htmp hdraw (afterBlock st)
    rw [acatch_of_ok _ _ _ (by rw [hsb]; rfl), hsb, insetBox_run]
    simp [fallbackBoxOp, afterBlock]
  · intro hsvg htools hconv
    rw [hblock, embedTail_exists _ _ _ _ _ _ _ _ _ hex,
      embedBody_svg _ _ _ _ _ _ _ _ _ hpdf hsvg]
    have hsb := svgBranch_convFail env fp (geomX a) (geomY a) (geomW a) (geomH a)
      htools hconv (afterBlock st)
    rw [acatch_of_err _ _ _ _ (by rw [hsb])]
    rw [hsb, insetBox_run]
    simp [fallbackBoxOp, afterBlock]
  · intro hsvg himg hdraw
    rw [hblock, embedTail_exists _ _ _ _ _ _ _ _ _ hex,
      embedBody_image _ _ _ _ _ _ _ _ _ hpdf hsvg himg]
    have hdi : drawImageA env fp (geomX a) (geomY a) (geomW a) (geomH a)
        (afterBlock st) = ([], afterBlock st, some "image error") := by
      unfold drawImageA
      rw [hdraw]
    have hib : acatch (drawImageA env fp (geomX a) (geomY a) (geomW a) (geomH a))
        (fun _ => insetBox ⟨1, 0.9, 0.9⟩ (geomX a) (geomY a) (geomW a) (geomH a))
        (afterBlock st) =
        insetBox ⟨1, 0.9, 0.9⟩ (geomX a) (geomY a) (geomW a) (geomH a)
          (afterBlock st) := by
      rw [acatch_of_err _ _ _ _ (by rw [hdi]), hdi]
      simp
    rw [acatch_of_ok _ _ _ (by rw [hib]; rfl), hib, insetBox_run]
    simp [fallbackBoxOp, afterBlock]
  · intro hsvg himg
    rw [hblock, embedTail_exists _ _ _ _ _ _ _ _ _ hex,
      embedBody_unknown _ _ _ _ _ _ _ _ _ hpdf hsvg himg]
    rw [acatch_of_ok _ _ _ rfl, insetBox_run]
    simp [fallbackBoxOp, afterBlock]

/-- C7 witness: an SVG asset with unavailable rasterization tools yields the
green inset fallback box. -/
theorem claim7_witness :
    (perPlacement envNoSvgTools [dfSvg] 0 arrStd initCS).1 =
      blockOps 0 arrStd dfSvg ++ [fallbackBoxOp ⟨0.9, 1, 0.9⟩ arrStd] :=
  (claim7_fallback_tints envNoSvgTools [dfSvg] 0 arrStd initCS dfSvg "/art.svg"
    rfl rfl rfl rfl).1 rfl rfl

set_option maxRecDepth 8000 in
/-- C7 counterexample: the green fallback box of an SVG with unavailable
tools is inset 2 points, not at the exact target bounds; and an svg2png
conversion failure produces the generic gray box, not a green one. -/
theorem claim7_counterexample :
    (perPlacement envNoSvgTools [dfSvg] 0 arrStd initCS).1 =
      blockOps 0 arrStd dfSvg ++ [fallbackBoxOp ⟨0.9, 1, 0.9⟩ arrStd]
    ∧ ((perPlacement envNoSvgTools [dfSvg] 0 arrStd initCS).1.countP
        (isFillColorAt ⟨0.9, 1, 0.9⟩ (geomX arrStd) (geomY arrStd) (geomW arrStd)
          (geomH arrStd))) = 0
    ∧ ((perPlacement envNoSvgTools [dfSvg] 0 arrStd initCS).1.countP
        (isFillColor ⟨0.9, 1, 0.9⟩)) = 1
    ∧ ((perPlacement envSvgConvFails [dfSvg] 0 arrStd initCS).1.countP
        (isFillColor ⟨0.9, 1, 0.9⟩)) = 0
    ∧ ((perPlacement envSvgConvFails [dfSvg] 0 arrStd initCS).1.countP
        (isFillColor ⟨0.9, 0.9, 0.9⟩)) = 1 := by
  refine ⟨rfl, ?_, ?_, ?_, ?_⟩
  · with_unfolding_all decide
  · with_unfolding_all decide
  · with_unfolding_all decide
  · with_unfolding_all decide

/-- C2 (amended): for every environment that can write the output, the
result is one single page of exactly 330 mm by 480 mm, the number of
placement labels equals the number of placements whose designId resolves to
a design file — independent of embedding failures, but placements whose id
misses contribute nothing — and each resolved placement contributes at least
one solid blue border rectangle. -/
theorem claim2_page_and_regions : ∀ (env : Env) (arrs : List Arrangement)
    (files : List DesignFile), env.save = true →
    create_layout_pdf env arrs files =
      .ok (⟨[⟨(sheetW, sheetH), docOps env arrs files⟩]⟩, true)
    ∧ (sheetW, sheetH) = (mmToPt 330, mmToPt 480)
    ∧ (docOps env arrs files).countP isLabelOp = resolvedCount files arrs
    ∧ resolvedCount files arrs ≤ (docOps env arrs files).countP isBorderRect := by
  intro env arrs files h
  have hd : docOps env arrs files =
      (headerA arrs.length initCS).1
        ++ (loopArr env files 0 arrs (headerA arrs.length initCS).2.1).1
        ++ (statsA arrs.length
             (loopArr env files 0 arrs (headerA arrs.length initCS).2.1).2.1).1 := by
    unfold docOps
    rw [createLayout_run]
  have hsize : (sheetW, sheetH) = (mmToPt 330, mmToPt 480) := by
    unfold sheetW sheetH mmToPt mmPt cmPt
    norm_num
  refine ⟨create_layout_pdf_ok _ _ _ h, hsize, ?_, ?_⟩
  · rw [hd, countP_append_op, countP_append_op]
    have hh : ((headerA arrs.length initCS).1.countP isLabelOp) = 0 := by
      rw [headerA_run]
      rfl
    have hs : ((statsA arrs.length
        (loopArr env files 0 arrs (headerA arrs.length initCS).2.1).2.1).1.countP
          isLabelOp) = 0 := by
      rw [statsA_run]
      rfl
    rw [hh, hs, loopArr_label]
    omega
  · rw [hd, countP_append_op, countP_append_op]
    have := loopArr_border_ge env files arrs 0 (headerA arrs.length initCS).2.1
    omega

/-- C2 witness: the single-placement resolved scenario has one label. -/
theorem claim2_witness :
    create_layout_pdf envNoFile [arrStd] [dfC8] =
      .ok (⟨[⟨(sheetW, sheetH), docOps envNoFile [arrStd] [dfC8]⟩]⟩, true)
    ∧ (sheetW, sheetH) = (mmToPt 330, mmToPt 480)
    ∧ (docOps envNoFile [arrStd] [dfC8]).countP isLabelOp
        = resolvedCount [dfC8] [arrStd]
    ∧ resolvedCount [dfC8] [arrStd]
        ≤ (docOps envNoFile [arrStd] [dfC8]).countP isBorderRect :=
  claim2_page_and_regions envNoFile [arrStd] [dfC8] rfl

/-- C2 counterexample: a request with one placement whose designId matches
no design file renders successfully but contains zero placement border
rectangles, so the output does not contain exactly N = 1 of them. -/
theorem claim2_counterexample :
    create_layout_pdf envAllOk [arrMiss] [dfC8] =
      .ok (⟨[⟨(sheetW, sheetH), docOps envAllOk [arrMiss] [dfC8]⟩]⟩, true)
    ∧ (docOps envAllOk [arrMiss] [dfC8]).countP isBorderRect = 0
    ∧ [arrMiss].length = 1 := by
  refine ⟨create_layout_pdf_ok _ _ _ rfl, ?_, rfl⟩
  with_unfolding_all decide

/-- C6 (amended): an invocation whose input is not valid structured data, or
whose payload is not an object, aborts with the failure outcome; but missing
top-level fields are not fatal: they are silently defaulted (arrangements to
the empty list, designFiles to the empty list, outputPath to layout.pdf) and
a sheet is produced with the success outcome. -/
theorem claim6_invalid_payload :
    (∀ env : Env, runMain none env = .failure) ∧
    (∀ (env : Env) (v : JValue), jIsObj v = false → runMain (some v) env = .failure) ∧
    (∀ env : Env, env.save = true →
      runMain (some (.obj [])) env = .success "layout.pdf") := by
  refine ⟨fun env => rfl, ?_, ?_⟩
  · intro env v hv
    cases v with
    | obj fs => simp [jIsObj] at hv
    | arr xs => rfl
    | str s => rfl
    | num q => rfl
    | bool b => rfl
    | null => rfl
  · intro env h
    show (match create_layout_pdf env [] [] with
          | Except.error _ => MainResult.failure
          | Except.ok (_, flag) =>
            if flag = true then MainResult.success "layout.pdf"
            else MainResult.failure) = MainResult.success "layout.pdf"
    rw [create_layout_pdf_ok env [] [] h]
    rfl

/-- C6 witness: missing top-level fields default and the render succeeds. -/
theorem claim6_witness : runMain (some (.obj [])) envNoFile = .success "layout.pdf" :=
  claim6_invalid_payload.2.2 envNoFile rfl

/-- C6 counterexample: a payload missing all three required top-level fields
is not fatal — the invocation reports success at the default path, refuting
the claim that missing top-level fields abort the render. -/
theorem claim6_counterexample :
    runMain (some (.obj [])) envAllOk = .success "layout.pdf" := by
  rfl

/-- C8 counterexample: the end-to-end `/missing.png` scenario succeeds and
draws the labelled region, but draws no fallback box at all (neither red nor
gray): the `os.path.exists` check precedes the extension routing, so a file
missing from storage skips the embedding step entirely. -/
theorem claim8_counterexample :
    runMain (some vC8) envNoFile = .success "layout.pdf"
    ∧ (docOps envNoFile [arrStd] [dfC8]).countP isFilledRect = 0 := by
  refine ⟨rfl, ?_⟩
  with_unfolding_all decide

/-- C8 (amended): the `/missing.png` request decodes to the standard
placement with the default output path; the run reports success; the sheet
is the header, then exactly the label/border/margin block of the placement
(whose label text is "1. A (50.0x30.0mm)"), then the statistics block — and
no fallback box, because the storage-existence check precedes the extension
routing. -/
theorem claim8_missing_file :
    decodeRequest vC8 = .ok ([arrStd], [dfC8], "layout.pdf")
    ∧ runMain (some vC8) envNoFile = .success "layout.pdf"
    ∧ docOps envNoFile [arrStd] [dfC8] =
        [Op.text cmPt (sheetH - cmPt) "Helvetica-Bold" 12
           "Matbixx - Otomatik Dizim Layout",
         Op.text cmPt (sheetH - 1.5 * cmPt) "Helvetica" 8
           "Boyut: 33x48cm | Toplam Tasarım: 1",
         Op.rect (0.5 * cmPt) (0.5 * cmPt) (sheetW - cmPt) (sheetH - cmPt)
           ⟨0, 0, 0⟩ false none]
        ++ blockOps 0 arrStd dfC8
        ++ [Op.text cmPt (2 * cmPt) "Helvetica" 8 "Toplam Dizilen Tasarım: 1",
            Op.text cmPt (2 * cmPt - 0.4 * cmPt) "Helvetica" 8 "Kesim Payı: 0.3cm (3mm)",
            Op.text cmPt (2 * cmPt - 0.8 * cmPt) "Helvetica" 8
              "Algoritma: Advanced 2D Bin Packing"]
    ∧ labelName 0 dfC8 = "A"
    ∧ labelText 0 "A" 50 30 = "1. A (50.0x30.0mm)"
    ∧ (docOps envNoFile [arrStd] [dfC8]).countP isFilledRect = 0 := by
  refine ⟨rfl, rfl, rfl, rfl, ?_, ?_⟩
  · with_unfolding_all decide
  · with_unfolding_all decide

/-- C9: a request with an empty arrangements list still succeeds: the output
is one page with the two title lines, the full-sheet border inset 0.5 cm on
all sides, and the statistics block reporting zero placements. -/
theorem claim9_empty_arrangements : ∀ (env : Env) (files : List DesignFile),
    env.save = true →
    create_layout_pdf env [] files =
      .ok (⟨[⟨(sheetW, sheetH),
        [Op.text cmPt (sheetH - cmPt) "Helvetica-Bold" 12
           "Matbixx - Otomatik Dizim Layout",
         Op.text cmPt (sheetH - 1.5 * cmPt) "Helvetica" 8
           "Boyut: 33x48cm | Toplam Tasarım: 0",
         Op.rect (0.5 * cmPt) (0.5 * cmPt) (sheetW - cmPt) (sheetH - cmPt)
           ⟨0, 0, 0⟩ false none,
         Op.text cmPt (2 * cmPt) "Helvetica" 8 "Toplam Dizilen Tasarım: 0",
         Op.text cmPt (2 * cmPt - 0.4 * cmPt) "Helvetica" 8 "Kesim Payı: 0.3cm (3mm)",
         Op.text cmPt (2 * cmPt - 0.8 * cmPt) "Helvetica" 8
           "Algoritma: Advanced 2D Bin Packing"]⟩]⟩, true) := by
  intro env files h
  rw [create_layout_pdf_ok env [] files h]
  rfl

/-- C9 witness: the empty request rendered in a concrete environment. -/
theorem claim9_witness :
    create_layout_pdf envAllOk [] [] =
      .ok (⟨[⟨(sheetW, sheetH),
        [Op.text cmPt (sheetH - cmPt) "Helvetica-Bold" 12
           "Matbixx - Otomatik Dizim Layout",
         Op.text cmPt (sheetH - 1.5 * cmPt) "Helvetica" 8
           "Boyut: 33x48cm | Toplam Tasarım: 0",
         Op.rect (0.5 * cmPt) (0.5 * cmPt) (sheetW - cmPt) (sheetH - cmPt)
           ⟨0, 0, 0⟩ false none,
         Op.text cmPt (2 * cmPt) "Helvetica" 8 "Toplam Dizilen Tasarım: 0",
         Op.text cmPt (2 * cmPt - 0.4 * cmPt) "Helvetica" 8 "Kesim Payı: 0.3cm (3mm)",
         Op.text cmPt (2 * cmPt - 0.8 * cmPt) "Helvetica" 8
           "Algoritma: Advanced 2D Bin Packing"]⟩]⟩, true) :=
  claim9_empty_arrangements envAllOk [] rfl

/-- C10: missing fields are silently defaulted, never errors: an arrangement
with absent x, y, width, height renders exactly as one with x = 0, y = 0,
width = 50, height = 30; an absent display name defaults to
`Design_(index+1)`; an absent top-level outputPath decodes to
`layout.pdf`. -/
theorem claim10_defaults :
    (∀ (env : Env) (files : List DesignFile) (i : ℕ) (d : Option String)
       (st : CanvasState),
       perPlacement env files i ⟨d, none, none, none, none⟩ st =
         perPlacement env files i ⟨d, some 0, some 0, some 50, some 30⟩ st) ∧
    (∀ (i : ℕ) (df : DesignFile), df.name = none →
       labelName i df = "Design_" ++ toString (i + 1)) ∧
    (∀ (fs : List (String × JValue)) (arrs : List Arrangement)
       (files : List DesignFile) (out : String),
       decodeRequest (.obj fs) = .ok (arrs, files, out) →
       jGet fs "outputPath" = none → out = "layout.pdf") := by
  refine ⟨fun env files i d st => rfl, ?_, ?_⟩
  · intro i df h
    unfold labelName
    rw [h]
    rfl
  · intro fs arrs files out hd hout
    simp only [decodeRequest] at hd
    rw [hout] at hd
    split at hd
    · exact Except.noConfusion hd
    · split at hd
      · exact Except.noConfusion hd
      · simp only [Except.ok.injEq, Prod.mk.injEq] at hd
        exact hd.2.2.symm

/-- C10 witness: the defaults at concrete inputs. -/
theorem claim10_witness :
    perPlacement envAllOk [dfC8] 0 ⟨some "a", none, none, none, none⟩ initCS =
      perPlacement envAllOk [dfC8] 0 ⟨some "a", some 0, some 0, some 50, some 30⟩ initCS
    ∧ labelName 2 ⟨some "q", some "/x.png", none⟩ = "Design_3"
    ∧ "layout.pdf" = "layout.pdf" :=
  ⟨claim10_defaults.1 envAllOk [dfC8] 0 (some "a") initCS,
   claim10_defaults.2.1 2 ⟨some "q", some "/x.png", none⟩ rfl,
   claim10_defaults.2.2 [] [] [] "layout.pdf" rfl rfl⟩
